import Mathlib

/-!
Shallow embedding of `src/index.ts` of scalereal/terraform-aws-rds: a cdktf
construct (`RdsModule`) that synthesizes a security group, a DB subnet group,
and either an Aurora cluster with N cluster instances or a standalone DB
instance, from a single configuration record.

Modelling conventions:
* Tag maps (JS objects with string keys/values) are modelled as functions
  `String → Option String`; the JS object-spread merge `\x7b ...a, ...b \x7d`
  is `spreadMerge a b` (later spread wins on key collision).
* cdktf attribute references (`caller.userId`, `timeStatic.id`,
  `auroraCluster.id`, `auroraCluster.endpoint`, `rdsInstance.endpoint`,
  `this.securityGroup.id`) are opaque tokens, modelled as fixed
  token strings.
* JS truthiness in `x || d`: for a number, `0` is falsy; for a string, the
  empty string is falsy (`jsOrNat`, `jsOrStr`).
* `numberOfInstances` (a TS `number` used only as a count / in `> 1`
  comparisons) is modelled as `Nat`.
* The TS non-null assertions `instanceClass!` / `allocatedStorage!` in the
  standalone branch are compile-time casts, erased at runtime: the
  constructor passes the runtime values (possibly `undefined`) straight
  into the `DbInstance` description and never fails. The corresponding
  `DbInstance` fields are therefore `Option`-valued, and construction is a
  total function.
* `vpc.database_subnet_ids` is supplied by the external VPC module, whose
  contract guarantees its presence; it is modelled as a plain list.
-/

/-- JS `engine.includes(pat)`: does `pat` occur as a contiguous substring? -/
def startsWithL : List Char → List Char → Bool
  | _, [] => true
  | [], _ :: _ => false
  | c :: cs, p :: ps => decide (c = p) && startsWithL cs ps

/-- Substring occurrence over character lists. -/
def containsL : List Char → List Char → Bool
  | [], pat => pat.isEmpty
  | c :: rest, pat => startsWithL (c :: rest) pat || containsL rest pat

/-- `s.includes(pat)` from JS, on Lean strings. -/
def strIncludes (s pat : String) : Bool :=
  containsL s.data pat.data

/-- JS `x || d` on an optional number: `undefined` and `0` are falsy. -/
def jsOrNat (x : Option Nat) (d : Nat) : Nat :=
  match x with
  | none => d
  | some n => if n = 0 then d else n

/-- JS `x || d` on an optional string: `undefined` and `""` are falsy. -/
def jsOrStr (x : Option String) (d : String) : String :=
  match x with
  | none => d
  | some s => if s = "" then d else s

/-- A JS object with string keys and values, by its lookup function. -/
def TagMap : Type := String → Option String

/-- The empty JS object (the `tags = \x7b\x7d` destructuring default). -/
def emptyTagMap : TagMap := fun _ => none

/-- JS object spread `\x7b ...a, ...b \x7d`: keys of `b` win on collision. -/
def spreadMerge (a b : TagMap) : TagMap := fun k =>
  match b k with
  | some v => some v
  | none => a k

/-- The external VPC module fields read by `RdsModule` (never constructed
or mutated here). -/
structure VpcModule where
  vpc_id : String
  vpc_cidr : String
  vpc_ipv6_cidr : String
  database_subnet_ids : List String

/-- `RdsModuleConfig` from `src/index.ts` (optional fields as `Option`). -/
structure RdsModuleConfig where
  username : String
  password : String
  maintenanceWindow : String
  backupWindow : String
  backupRetentionPeriod : Nat
  dbName : String
  engine : String
  engineVersion : String
  instanceClass : Option String
  isAurora : Bool
  numberOfInstances : Option Nat
  allocatedStorage : Option Nat
  serviceName : String
  env : String
  tags : Option TagMap
  vpc : VpcModule

/-- One ingress rule of the security group. -/
structure SecurityGroupIngress where
  protocol : String
  fromPort : Nat
  toPort : Nat
  cidrBlocks : List String
  ipv6CidrBlocks : List String
  description : String
  deriving DecidableEq

/-- One egress rule of the security group. -/
structure SecurityGroupEgress where
  protocol : String
  fromPort : Nat
  toPort : Nat
  cidrBlocks : List String
  ipv6CidrBlocks : List String

/-- The `aws_security_group` resource emitted as `rds-sg`. -/
structure SecurityGroup where
  name : String
  description : String
  vpcId : String
  ingress : List SecurityGroupIngress
  egress : List SecurityGroupEgress
  tags : TagMap

/-- The `aws_db_subnet_group` resource emitted as `db-subnet-group`. -/
structure DbSubnetGroup where
  name : String
  subnetIds : List String
  tags : TagMap

/-- The `aws_rds_cluster` resource emitted as `rds-cluster`. -/
structure RdsCluster where
  clusterIdentifier : String
  engine : String
  engineVersion : String
  databaseName : String
  masterUsername : String
  masterPassword : String
  backupRetentionPeriod : Nat
  preferredBackupWindow : String
  preferredMaintenanceWindow : String
  skipFinalSnapshot : Bool
  storageType : String
  storageEncrypted : Bool
  dbSubnetGroupName : String
  vpcSecurityGroupIds : List String
  tags : TagMap

/-- One `aws_rds_cluster_instance` resource (`rds-cluster-instance-i`). -/
structure RdsClusterInstance where
  constructId : String
  clusterIdentifier : String
  engine : String
  instanceClass : String
  dbSubnetGroupName : String
  tags : TagMap

/-- The `aws_db_instance` resource emitted as `rds-instance`. The
`instanceClass` and `allocatedStorage` fields hold the runtime values the
constructor passes through the erased `!` casts, so they may be absent. -/
structure DbInstance where
  identifier : String
  engine : String
  engineVersion : String
  instanceClass : Option String
  allocatedStorage : Option Nat
  dbName : String
  username : String
  password : String
  backupRetentionPeriod : Nat
  backupWindow : String
  maintenanceWindow : String
  skipFinalSnapshot : Bool
  dbSubnetGroupName : String
  vpcSecurityGroupIds : List String
  storageEncrypted : Bool
  storageType : String
  multiAz : Bool
  tags : TagMap

/-- A `TerraformOutput` (name and published value). -/
structure TerraformOutput where
  name : String
  value : String

/-- Exactly one database-resource variant per module instantiation. -/
inductive DbResource where
  | aurora (cluster : RdsCluster) (instances : List RdsClusterInstance)
  | standalone (inst : DbInstance)

/-- Everything `RdsModule`'s constructor emits, plus its public outputs. -/
structure RdsModuleResult where
  securityGroup : SecurityGroup
  dbSubnetGroup : DbSubnetGroup
  db : DbResource
  outputs : List TerraformOutput
  rdsEndpoint : String
  username : String
  password : String

/-- Token for `caller.userId` (`data_aws_caller_identity` lookup). -/
def callerUserIdToken : String := "tfref.data.aws_caller_identity.caller.user_id"

/-- Token for `timeStatic.id` (`time_static` resource). -/
def timeStaticIdToken : String := "tfref.time_static.timestamp.id"

/-- Token for `this.securityGroup.id`. -/
def securityGroupIdToken : String := "tfref.aws_security_group.rds-sg.id"

/-- Token for `auroraCluster.id`. -/
def auroraClusterIdToken : String := "tfref.aws_rds_cluster.rds-cluster.id"

/-- Token for `auroraCluster.endpoint`. -/
def auroraClusterEndpointToken : String := "tfref.aws_rds_cluster.rds-cluster.endpoint"

/-- Token for `rdsInstance.endpoint`. -/
def rdsInstanceEndpointToken : String := "tfref.aws_db_instance.rds-instance.endpoint"

/-- The `defaultTags` object (lines 61-68 of `src/index.ts`). -/
def mkDefaultTags (serviceName env : String) : TagMap := fun k =>
  if k = "Name" then some (serviceName ++ "-" ++ env)
  else if k = "Service" then some serviceName
  else if k = "ENV" then some env
  else if k = "Provisioner" then some "CDKTF"
  else if k = "Provisioned By" then some callerUserIdToken
  else if k = "Provisioned Date" then some timeStaticIdToken
  else none

/-- `this.securityGroup = new SecurityGroup(...)` (lines 71-97). -/
def mkSecurityGroup (config : RdsModuleConfig) : SecurityGroup :=
  { name := config.serviceName ++ "-" ++ config.env ++ "-rds-sg"
    description := "Security group for " ++ config.serviceName ++ " RDS"
    vpcId := config.vpc.vpc_id
    ingress := [
      { protocol := "tcp"
        fromPort := if strIncludes config.engine "postgres" then 5432 else 3306
        toPort := if strIncludes config.engine "postgres" then 5432 else 3306
        cidrBlocks := [config.vpc.vpc_cidr]
        ipv6CidrBlocks := [config.vpc.vpc_ipv6_cidr]
        description := "Allow "
          ++ (if strIncludes config.engine "postgres" then "PostgreSQL" else "MySQL")
          ++ " traffic" }]
    egress := [
      { protocol := "-1"
        fromPort := 0
        toPort := 0
        cidrBlocks := ["0.0.0.0/0"]
        ipv6CidrBlocks := ["::/0"] }]
    tags := spreadMerge (mkDefaultTags config.serviceName config.env)
      (config.tags.getD emptyTagMap) }

/-- `new DbSubnetGroup(...)` (lines 100-104). -/
def mkDbSubnetGroup (config : RdsModuleConfig) : DbSubnetGroup :=
  { name := config.serviceName ++ "-" ++ config.env ++ "-db-subnet-group"
    subnetIds := config.vpc.database_subnet_ids
    tags := spreadMerge (mkDefaultTags config.serviceName config.env)
      (config.tags.getD emptyTagMap) }

/-- `const auroraCluster = new RdsCluster(...)` (lines 108-124). -/
def mkAuroraCluster (config : RdsModuleConfig) : RdsCluster :=
  { clusterIdentifier := config.serviceName ++ "-" ++ config.env ++ "-aurora-cluster"
    engine := config.engine
    engineVersion := config.engineVersion
    databaseName := config.dbName
    masterUsername := config.username
    masterPassword := config.password
    backupRetentionPeriod := config.backupRetentionPeriod
    preferredBackupWindow := config.backupWindow
    preferredMaintenanceWindow := config.maintenanceWindow
    skipFinalSnapshot := true
    storageType := "gp3"
    storageEncrypted := true
    dbSubnetGroupName := (mkDbSubnetGroup config).name
    vpcSecurityGroupIds := [securityGroupIdToken]
    tags := spreadMerge (mkDefaultTags config.serviceName config.env)
      (config.tags.getD emptyTagMap) }

/-- `new RdsClusterInstance(this, rds-cluster-instance-i, ...)` (lines
128-134), the body of the instance-creation loop at index `i`. -/
def mkClusterInstance (config : RdsModuleConfig) (i : Nat) : RdsClusterInstance :=
  { constructId := "rds-cluster-instance-" ++ toString i
    clusterIdentifier := auroraClusterIdToken
    engine := (mkAuroraCluster config).engine
    instanceClass := jsOrStr config.instanceClass "db.t4g.medium"
    dbSubnetGroupName := (mkDbSubnetGroup config).name
    tags := spreadMerge (mkDefaultTags config.serviceName config.env)
      (config.tags.getD emptyTagMap) }

/-- `const rdsInstance = new DbInstance(...)` (lines 143-162). The `!`
casts on `instanceClass` / `allocatedStorage` are erased at runtime, so the
configuration's optional values flow through unchanged. -/
def mkRdsInstance (config : RdsModuleConfig) : DbInstance :=
  { identifier := config.serviceName ++ "-" ++ config.env ++ "-rds-instance"
    engine := config.engine
    engineVersion := config.engineVersion
    instanceClass := config.instanceClass
    allocatedStorage := config.allocatedStorage
    dbName := config.dbName
    username := config.username
    password := config.password
    backupRetentionPeriod := config.backupRetentionPeriod
    backupWindow := config.backupWindow
    maintenanceWindow := config.maintenanceWindow
    skipFinalSnapshot := true
    dbSubnetGroupName := (mkDbSubnetGroup config).name
    vpcSecurityGroupIds := [securityGroupIdToken]
    storageEncrypted := true
    storageType := "gp3"
    multiAz := match config.numberOfInstances with
      | none => false
      | some n => decide (1 < n)
    tags := spreadMerge (mkDefaultTags config.serviceName config.env)
      (config.tags.getD emptyTagMap) }

/-- The `RdsModule` constructor (lines 37-171 of `src/index.ts`): emits the
security group, the subnet group, and either an Aurora cluster plus
`numberOfInstances || 1` cluster instances, or one standalone DB instance.
Construction is total: it never fails at runtime — missing standalone
fields are passed through as absent values. -/
def RdsModule.construct (config : RdsModuleConfig) : RdsModuleResult :=
  let securityGroup := mkSecurityGroup config
  let dbSubnetGroup := mkDbSubnetGroup config
  if config.isAurora then
    let auroraCluster := mkAuroraCluster config
    let numInstances := jsOrNat config.numberOfInstances 1
    let instances : List RdsClusterInstance :=
      (List.range numInstances).map (mkClusterInstance config)
    { securityGroup := securityGroup
      dbSubnetGroup := dbSubnetGroup
      db := DbResource.aurora auroraCluster instances
      outputs := [{ name := "aurora_cluster_endpoint", value := auroraClusterEndpointToken }]
      rdsEndpoint := auroraClusterEndpointToken
      username := config.username
      password := config.password }
  else
    let rdsInstance := mkRdsInstance config
    { securityGroup := securityGroup
      dbSubnetGroup := dbSubnetGroup
      db := DbResource.standalone rdsInstance
      outputs := [{ name := "rds_instance_endpoint", value := rdsInstanceEndpointToken }]
      rdsEndpoint := rdsInstanceEndpointToken
      username := config.username
      password := config.password }

/-- The cluster and its instances, when the Aurora branch was taken. -/
def auroraOf (r : RdsModuleResult) : Option (RdsCluster × List RdsClusterInstance) :=
  match r.db with
  | DbResource.aurora cl insts => some (cl, insts)
  | DbResource.standalone _ => none

/-- The number of emitted cluster instances, when the Aurora branch was
taken. -/
def clusterInstanceCount (r : RdsModuleResult) : Option Nat :=
  (auroraOf r).map fun p => p.2.length

/-- The instance sizing classes of the emitted cluster instances. -/
def clusterInstanceClasses (r : RdsModuleResult) : Option (List String) :=
  (auroraOf r).map fun p => p.2.map fun i => i.instanceClass

/-- Whether every emitted cluster instance references the cluster's id. -/
def clusterInstancesAttached (r : RdsModuleResult) : Option Bool :=
  (auroraOf r).map fun p => p.2.all fun i => i.clusterIdentifier == auroraClusterIdToken

/-- The standalone DB instance, when the standalone branch was taken. -/
def standaloneOf (r : RdsModuleResult) : Option DbInstance :=
  match r.db with
  | DbResource.aurora _ _ => none
  | DbResource.standalone inst => some inst

/-- Storage type, storage encryption, and final-snapshot skip of the
emitted database resource (the cluster when Aurora, the standalone instance
else). -/
def dbStorageSettings (r : RdsModuleResult) : String × Bool × Bool :=
  match r.db with
  | DbResource.aurora cl _ => (cl.storageType, cl.storageEncrypted, cl.skipFinalSnapshot)
  | DbResource.standalone inst => (inst.storageType, inst.storageEncrypted, inst.skipFinalSnapshot)

/-- The tag maps of every emitted resource that carries tags: security
group, subnet group, then cluster and each cluster instance, or the
standalone instance. -/
def tagMapsOf (r : RdsModuleResult) : List TagMap :=
  r.securityGroup.tags :: r.dbSubnetGroup.tags ::
    (match r.db with
     | DbResource.aurora cl insts => cl.tags :: insts.map fun i => i.tags
     | DbResource.standalone inst => [inst.tags])

/-- A sample VPC descriptor for concrete evaluations. -/
def sampleVpc : VpcModule :=
  { vpc_id := "vpc-0a1b2c"
    vpc_cidr := "10.0.0.0/16"
    vpc_ipv6_cidr := "fd00::/56"
    database_subnet_ids := ["subnet-a", "subnet-b"] }

/-- A sample caller tag map: overrides `ENV` and adds `Team`. -/
def sampleTags : TagMap := fun k =>
  if k = "ENV" then some "overridden-env"
  else if k = "Team" then some "platform"
  else none

/-- A sample Aurora configuration (postgres engine, 3 instances). -/
def sampleAuroraCfg : RdsModuleConfig :=
  { username := "admin"
    password := "hunter2"
    maintenanceWindow := "Mon:00:00-Mon:03:00"
    backupWindow := "03:00-04:00"
    backupRetentionPeriod := 7
    dbName := "appdb"
    engine := "aurora-postgresql"
    engineVersion := "14.6"
    instanceClass := some "db.r6g.large"
    isAurora := true
    numberOfInstances := some 3
    allocatedStorage := none
    serviceName := "billing"
    env := "prod"
    tags := some sampleTags
    vpc := sampleVpc }

/-- A sample standalone configuration (mysql engine, required fields given). -/
def sampleStandaloneCfg : RdsModuleConfig :=
  { sampleAuroraCfg with
    engine := "mysql"
    engineVersion := "8.0"
    instanceClass := some "db.t3.small"
    isAurora := false
    numberOfInstances := none
    allocatedStorage := some 20 }

/-- A sample ingress rule: the one `mkSecurityGroup` emits for
`sampleAuroraCfg` (postgres-family engine). -/
def samplePgIngressRule : SecurityGroupIngress :=
  { protocol := "tcp"
    fromPort := 5432
    toPort := 5432
    cidrBlocks := ["10.0.0.0/16"]
    ipv6CidrBlocks := ["fd00::/56"]
    description := "Allow PostgreSQL traffic" }

/-- Helper: the Aurora branch of the constructor, as an equation. -/
theorem construct_aurora (cfg : RdsModuleConfig) (h : cfg.isAurora = true) :
    RdsModule.construct cfg =
      { securityGroup := mkSecurityGroup cfg
        dbSubnetGroup := mkDbSubnetGroup cfg
        db := DbResource.aurora (mkAuroraCluster cfg)
          ((List.range (jsOrNat cfg.numberOfInstances 1)).map (mkClusterInstance cfg))
        outputs := [{ name := "aurora_cluster_endpoint", value := auroraClusterEndpointToken }]
        rdsEndpoint := auroraClusterEndpointToken
        username := cfg.username
        password := cfg.password } := by
  simp [RdsModule.construct, h]

/-- Helper: the standalone branch of the constructor, as an equation. -/
theorem construct_standalone (cfg : RdsModuleConfig) (h : cfg.isAurora = false) :
    RdsModule.construct cfg =
      { securityGroup := mkSecurityGroup cfg
        dbSubnetGroup := mkDbSubnetGroup cfg
        db := DbResource.standalone (mkRdsInstance cfg)
        outputs := [{ name := "rds_instance_endpoint", value := rdsInstanceEndpointToken }]
        rdsEndpoint := rdsInstanceEndpointToken
        username := cfg.username
        password := cfg.password } := by
  simp [RdsModule.construct, h]

/-- Helper: the security group of every construction is `mkSecurityGroup`. -/
theorem construct_securityGroup (cfg : RdsModuleConfig) :
    (RdsModule.construct cfg).securityGroup = mkSecurityGroup cfg := by
  cases hb : cfg.isAurora with
  | true => rw [construct_aurora cfg hb]
  | false => rw [construct_standalone cfg hb]

/-- C3: for every configuration, the access group has exactly one ingress
rule, and its fromPort and toPort are 5432 when the engine identifier
contains the PostgreSQL marker substring and 3306 otherwise. -/
theorem c3_ingress_port (cfg : RdsModuleConfig) :
    (mkSecurityGroup cfg).ingress.length = 1 ∧
    ∀ rule ∈ (mkSecurityGroup cfg).ingress,
      (strIncludes cfg.engine "postgres" = true →
        rule.fromPort = 5432 ∧ rule.toPort = 5432) ∧
      (strIncludes cfg.engine "postgres" = false →
        rule.fromPort = 3306 ∧ rule.toPort = 3306) := by
  refine ⟨rfl, ?_⟩
  intro rule hr
  simp only [mkSecurityGroup, List.mem_singleton] at hr
  subst hr
  refine ⟨fun h => ?_, fun h => ?_⟩ <;> simp [h]

/-- C3 witness: for the sample postgres-family configuration, the single
ingress rule carries port 5432. -/
theorem c3_ingress_port_witness :
    (strIncludes sampleAuroraCfg.engine "postgres" = true →
      samplePgIngressRule.fromPort = 5432 ∧ samplePgIngressRule.toPort = 5432) ∧
    (strIncludes sampleAuroraCfg.engine "postgres" = false →
      samplePgIngressRule.fromPort = 3306 ∧ samplePgIngressRule.toPort = 3306) :=
  (c3_ingress_port sampleAuroraCfg).2 samplePgIngressRule (by decide)

/-- A standalone configuration with `instanceClass` omitted. -/
def c4Cfg : RdsModuleConfig := { sampleStandaloneCfg with instanceClass := none }

/-- C4 counterexample: with the clustered flag unset and `instanceClass`
omitted, construction does not fail — the `!` assertion is erased at
runtime, so the module still emits a standalone database instance, whose
sizing class is simply absent. -/
theorem c4_no_failure_counterexample :
    c4Cfg.isAurora = false ∧ c4Cfg.instanceClass = none ∧
    (RdsModule.construct c4Cfg).db = DbResource.standalone (mkRdsInstance c4Cfg) ∧
    (mkRdsInstance c4Cfg).instanceClass = none :=
  ⟨rfl, rfl, rfl, rfl⟩

/-- C4 (amended): with the clustered flag unset and `instanceClass`
omitted, construction succeeds anyway: exactly one standalone database
instance is emitted, with no instance sizing class value — the missing
required field surfaces only outside this module. -/
theorem c4_missing_instance_class (cfg : RdsModuleConfig)
    (h : cfg.isAurora = false) (hc : cfg.instanceClass = none) :
    standaloneOf (RdsModule.construct cfg) = some (mkRdsInstance cfg) ∧
    (mkRdsInstance cfg).instanceClass = none := by
  refine ⟨by rw [construct_standalone cfg h]; rfl, ?_⟩
  simp [mkRdsInstance, hc]

/-- C4 witness: the concrete standalone configuration missing its sizing
class still emits one standalone instance, with the class absent. -/
theorem c4_missing_instance_class_witness :
    standaloneOf (RdsModule.construct c4Cfg) = some (mkRdsInstance c4Cfg) ∧
    (mkRdsInstance c4Cfg).instanceClass = none :=
  c4_missing_instance_class c4Cfg rfl rfl

/-- C6: every emitted database resource, in both topology branches, has
storage type gp3, storage encryption enabled, and final snapshot skipped,
for every configuration. -/
theorem c6_storage_invariants (cfg : RdsModuleConfig) :
    dbStorageSettings (RdsModule.construct cfg) = ("gp3", true, true) := by
  cases hb : cfg.isAurora with
  | true =>
    rw [construct_aurora cfg hb]
    rfl
  | false =>
    rw [construct_standalone cfg hb]
    rfl

/-- C6 witness: the sample Aurora configuration gets gp3, encrypted
storage, and a skipped final snapshot. -/
theorem c6_storage_invariants_witness :
    dbStorageSettings (RdsModule.construct sampleAuroraCfg) = ("gp3", true, true) :=
  c6_storage_invariants sampleAuroraCfg

/-- An Aurora configuration with an explicit instance count of 0. -/
def c1ZeroCfg : RdsModuleConfig := { sampleAuroraCfg with numberOfInstances := some 0 }

/-- C1 counterexample: with the clustered flag set and instance count K = 0,
the code emits 1 cluster instance, not 0 — the JS fallback
`numberOfInstances || 1` treats 0 as absent. -/
theorem c1_zero_count_counterexample :
    c1ZeroCfg.isAurora = true ∧
    c1ZeroCfg.numberOfInstances = some 0 ∧
    ¬ clusterInstanceCount (RdsModule.construct c1ZeroCfg) = some 0 ∧
    clusterInstanceCount (RdsModule.construct c1ZeroCfg) = some 1 := by
  decide

/-- C1 (amended): with the clustered flag set, the number of emitted cluster
instances equals the configured count K when K ≥ 1, and equals 1 when the
count is unsupplied or 0; every emitted instance references the same
cluster. -/
theorem c1_cluster_instance_count (cfg : RdsModuleConfig) (h : cfg.isAurora = true) :
    (∀ k, cfg.numberOfInstances = some k → 1 ≤ k →
       clusterInstanceCount (RdsModule.construct cfg) = some k) ∧
    (cfg.numberOfInstances = none →
       clusterInstanceCount (RdsModule.construct cfg) = some 1) ∧
    (cfg.numberOfInstances = some 0 →
       clusterInstanceCount (RdsModule.construct cfg) = some 1) ∧
    clusterInstancesAttached (RdsModule.construct cfg) = some true := by
  rw [construct_aurora cfg h]
  refine ⟨?_, ?_, ?_, ?_⟩
  · intro k hk h1
    have hk0 : ¬ k = 0 := by omega
    simp [clusterInstanceCount, auroraOf, jsOrNat, hk, hk0]
  · intro hk
    simp [clusterInstanceCount, auroraOf, jsOrNat, hk]
  · intro hk
    simp [clusterInstanceCount, auroraOf, jsOrNat, hk]
  · simp [clusterInstancesAttached, auroraOf, List.all_eq_true, List.mem_map,
      mkClusterInstance]

/-- C1 witness: the sample Aurora configuration with count 3 emits exactly 3
cluster instances. -/
theorem c1_cluster_instance_count_witness :
    clusterInstanceCount (RdsModule.construct sampleAuroraCfg) = some 3 :=
  (c1_cluster_instance_count sampleAuroraCfg rfl).1 3 rfl (by decide)

/-- C2: with the clustered flag unset, exactly one standalone DB instance
is emitted, and its multiAz field is true iff the configured instance count
is present and exceeds 1. -/
theorem c2_standalone_multi_az (cfg : RdsModuleConfig)
    (h : cfg.isAurora = false) :
    standaloneOf (RdsModule.construct cfg) = some (mkRdsInstance cfg) ∧
    ((mkRdsInstance cfg).multiAz = true ↔
      ∃ k, cfg.numberOfInstances = some k ∧ 1 < k) := by
  refine ⟨by rw [construct_standalone cfg h]; rfl, ?_⟩
  cases hn : cfg.numberOfInstances with
  | none => simp [mkRdsInstance, hn]
  | some n => simp [mkRdsInstance, hn]

/-- C2 witness: the sample standalone configuration (count unsupplied)
emits one standalone instance with multiAz false. -/
theorem c2_standalone_multi_az_witness :
    standaloneOf (RdsModule.construct sampleStandaloneCfg) =
      some (mkRdsInstance sampleStandaloneCfg) ∧
    ((mkRdsInstance sampleStandaloneCfg).multiAz = true ↔
      ∃ k, sampleStandaloneCfg.numberOfInstances = some k ∧ 1 < k) :=
  c2_standalone_multi_az sampleStandaloneCfg rfl

/-- C5: the final tag set is the deterministic spread merge of the module's
default tags with the caller-supplied tags — for a key the caller supplies,
the caller's value appears; for a key the caller does not supply, the
default map's value (present or absent) appears unchanged. -/
theorem c5_tag_merge (cfg : RdsModuleConfig) (k : String) :
    (∀ v, (cfg.tags.getD emptyTagMap) k = some v →
       (RdsModule.construct cfg).securityGroup.tags k = some v) ∧
    ((cfg.tags.getD emptyTagMap) k = none →
       (RdsModule.construct cfg).securityGroup.tags k =
         mkDefaultTags cfg.serviceName cfg.env k) := by
  rw [construct_securityGroup cfg]
  constructor
  · intro v hv
    simp [mkSecurityGroup, spreadMerge, hv]
  · intro hnone
    simp [mkSecurityGroup, spreadMerge, hnone]

/-- C5 witness: for the sample configuration, the caller-supplied override
of the default key ENV wins in the emitted tag set. -/
theorem c5_tag_merge_witness :
    (∀ v, (sampleAuroraCfg.tags.getD emptyTagMap) "ENV" = some v →
       (RdsModule.construct sampleAuroraCfg).securityGroup.tags "ENV" = some v) ∧
    ((sampleAuroraCfg.tags.getD emptyTagMap) "ENV" = none →
       (RdsModule.construct sampleAuroraCfg).securityGroup.tags "ENV" =
         mkDefaultTags sampleAuroraCfg.serviceName sampleAuroraCfg.env "ENV") :=
  c5_tag_merge sampleAuroraCfg "ENV"

/-- C7: the published endpoint output is the cluster endpoint when the
clustered flag is set and the standalone instance endpoint otherwise, and
the published username and password equal those of the configuration. -/
theorem c7_outputs (cfg : RdsModuleConfig) :
    (cfg.isAurora = true →
       (RdsModule.construct cfg).rdsEndpoint = auroraClusterEndpointToken ∧
       (RdsModule.construct cfg).outputs =
         [{ name := "aurora_cluster_endpoint", value := auroraClusterEndpointToken }]) ∧
    (cfg.isAurora = false →
       (RdsModule.construct cfg).rdsEndpoint = rdsInstanceEndpointToken ∧
       (RdsModule.construct cfg).outputs =
         [{ name := "rds_instance_endpoint", value := rdsInstanceEndpointToken }]) ∧
    (RdsModule.construct cfg).username = cfg.username ∧
    (RdsModule.construct cfg).password = cfg.password := by
  cases hb : cfg.isAurora with
  | true =>
    rw [construct_aurora cfg hb]
    exact ⟨fun _ => ⟨rfl, rfl⟩, fun hf => Bool.noConfusion hf, rfl, rfl⟩
  | false =>
    rw [construct_standalone cfg hb]
    exact ⟨fun ht => Bool.noConfusion ht, fun _ => ⟨rfl, rfl⟩, rfl, rfl⟩

/-- C7 witness: the sample Aurora configuration publishes the cluster
endpoint and its own credentials. -/
theorem c7_outputs_witness :
    (sampleAuroraCfg.isAurora = true →
       (RdsModule.construct sampleAuroraCfg).rdsEndpoint = auroraClusterEndpointToken ∧
       (RdsModule.construct sampleAuroraCfg).outputs =
         [{ name := "aurora_cluster_endpoint", value := auroraClusterEndpointToken }]) ∧
    (sampleAuroraCfg.isAurora = false →
       (RdsModule.construct sampleAuroraCfg).rdsEndpoint = rdsInstanceEndpointToken ∧
       (RdsModule.construct sampleAuroraCfg).outputs =
         [{ name := "rds_instance_endpoint", value := rdsInstanceEndpointToken }]) ∧
    (RdsModule.construct sampleAuroraCfg).username = sampleAuroraCfg.username ∧
    (RdsModule.construct sampleAuroraCfg).password = sampleAuroraCfg.password :=
  c7_outputs sampleAuroraCfg

/-- An Aurora configuration whose supplied sizing class is the empty
string. -/
def c8EmptyClassCfg : RdsModuleConfig :=
  { sampleAuroraCfg with instanceClass := some "", numberOfInstances := some 1 }

/-- C8 counterexample: when the supplied sizing class is the empty string,
the emitted cluster instance carries the default db.t4g.medium, not the
supplied value — the JS fallback `instanceClass || "db.t4g.medium"` treats
the empty string as absent. -/
theorem c8_empty_class_counterexample :
    c8EmptyClassCfg.isAurora = true ∧
    c8EmptyClassCfg.instanceClass = some "" ∧
    ¬ clusterInstanceClasses (RdsModule.construct c8EmptyClassCfg) = some [""] ∧
    clusterInstanceClasses (RdsModule.construct c8EmptyClassCfg) = some ["db.t4g.medium"] := by
  decide

/-- C8 (amended): with the clustered flag set, every emitted cluster
instance takes the configured sizing class when a non-empty one is
supplied, and the default db.t4g.medium when none or the empty string is
supplied. -/
theorem c8_instance_class (cfg : RdsModuleConfig) (l : List String)
    (h : cfg.isAurora = true)
    (hl : clusterInstanceClasses (RdsModule.construct cfg) = some l) :
    (∀ c, cfg.instanceClass = some c → ¬ c = "" → ∀ x ∈ l, x = c) ∧
    (cfg.instanceClass = none → ∀ x ∈ l, x = "db.t4g.medium") ∧
    (cfg.instanceClass = some "" → ∀ x ∈ l, x = "db.t4g.medium") := by
  rw [construct_aurora cfg h] at hl
  have hl2 : some (((List.range (jsOrNat cfg.numberOfInstances 1)).map
      (mkClusterInstance cfg)).map (fun i => i.instanceClass)) = some l := hl
  injection hl2 with hl3
  subst hl3
  refine ⟨?_, ?_, ?_⟩
  · intro c hcc hne x hx
    rcases List.mem_map.mp hx with ⟨inst, hin, rfl⟩
    rcases List.mem_map.mp hin with ⟨i, _, rfl⟩
    simp [mkClusterInstance, jsOrStr, hcc, hne]
  · intro hcc x hx
    rcases List.mem_map.mp hx with ⟨inst, hin, rfl⟩
    rcases List.mem_map.mp hin with ⟨i, _, rfl⟩
    simp [mkClusterInstance, jsOrStr, hcc]
  · intro hcc x hx
    rcases List.mem_map.mp hx with ⟨inst, hin, rfl⟩
    rcases List.mem_map.mp hin with ⟨i, _, rfl⟩
    simp [mkClusterInstance, jsOrStr, hcc]

/-- The sizing classes emitted for `sampleAuroraCfg`. -/
def c8WitnessList : List String := ["db.r6g.large", "db.r6g.large", "db.r6g.large"]

/-- C8 witness: for the sample Aurora configuration the supplied non-empty
sizing class is taken by every instance. -/
theorem c8_instance_class_witness :
    (∀ c, sampleAuroraCfg.instanceClass = some c → ¬ c = "" →
       ∀ x ∈ c8WitnessList, x = c) ∧
    (sampleAuroraCfg.instanceClass = none → ∀ x ∈ c8WitnessList, x = "db.t4g.medium") ∧
    (sampleAuroraCfg.instanceClass = some "" → ∀ x ∈ c8WitnessList, x = "db.t4g.medium") :=
  c8_instance_class sampleAuroraCfg c8WitnessList rfl (by decide)

/-- C9: every emitted resource that carries tags — security group, subnet
group, cluster and each cluster instance, or standalone instance — carries
the same final merged tag set. -/
theorem c9_uniform_tags (cfg : RdsModuleConfig) (l : List TagMap)
    (hl : tagMapsOf (RdsModule.construct cfg) = l) :
    ∀ t1 ∈ l, ∀ t2 ∈ l, t1 = t2 := by
  have hmem : ∀ t ∈ l,
      t = spreadMerge (mkDefaultTags cfg.serviceName cfg.env)
        (cfg.tags.getD emptyTagMap) := by
    cases hb : cfg.isAurora with
    | true =>
      rw [construct_aurora cfg hb] at hl
      have hl2 : ((mkSecurityGroup cfg).tags :: (mkDbSubnetGroup cfg).tags ::
          (mkAuroraCluster cfg).tags ::
          ((List.range (jsOrNat cfg.numberOfInstances 1)).map
            (mkClusterInstance cfg)).map (fun i => i.tags)) = l := hl
      subst hl2
      intro t ht
      rcases List.mem_cons.mp ht with rfl | ht
      · rfl
      rcases List.mem_cons.mp ht with rfl | ht
      · rfl
      rcases List.mem_cons.mp ht with rfl | ht
      · rfl
      rcases List.mem_map.mp ht with ⟨inst, hin, rfl⟩
      rcases List.mem_map.mp hin with ⟨i, _, rfl⟩
      rfl
    | false =>
      rw [construct_standalone cfg hb] at hl
      have hl2 : ((mkSecurityGroup cfg).tags :: (mkDbSubnetGroup cfg).tags ::
          [(mkRdsInstance cfg).tags]) = l := hl
      subst hl2
      intro t ht
      rcases List.mem_cons.mp ht with rfl | ht
      · rfl
      rcases List.mem_cons.mp ht with rfl | ht
      · rfl
      rcases List.mem_cons.mp ht with rfl | ht
      · rfl
      exact absurd ht (List.not_mem_nil t)
  intro t1 h1 t2 h2
  rw [hmem t1 h1, hmem t2 h2]

/-- The tag maps of the six resources emitted for `sampleAuroraCfg`. -/
def c9TagList : List TagMap :=
  [(mkSecurityGroup sampleAuroraCfg).tags, (mkDbSubnetGroup sampleAuroraCfg).tags,
   (mkAuroraCluster sampleAuroraCfg).tags, (mkClusterInstance sampleAuroraCfg 0).tags,
   (mkClusterInstance sampleAuroraCfg 1).tags, (mkClusterInstance sampleAuroraCfg 2).tags]

/-- C9 witness: for the sample Aurora configuration, the security group's
tag map equals the third cluster instance's tag map. -/
theorem c9_uniform_tags_witness :
    (mkSecurityGroup sampleAuroraCfg).tags = (mkClusterInstance sampleAuroraCfg 2).tags :=
  c9_uniform_tags sampleAuroraCfg c9TagList rfl
    (mkSecurityGroup sampleAuroraCfg).tags (by simp [c9TagList])
    (mkClusterInstance sampleAuroraCfg 2).tags (by simp [c9TagList])

/-- C10: every emitted cluster instance references the cluster's own
identifier, carries the cluster's engine, and the same subnet group name as
the cluster; all instances agree on every field except the index-derived
construct identifier, which is rds-cluster-instance-n at position n. -/
theorem c10_cluster_instance_uniformity (cfg : RdsModuleConfig)
    (cl : RdsCluster) (insts : List RdsClusterInstance)
    (h : cfg.isAurora = true)
    (hp : auroraOf (RdsModule.construct cfg) = some (cl, insts)) :
    (∀ i ∈ insts, i.clusterIdentifier = auroraClusterIdToken ∧
       i.engine = cl.engine ∧ i.dbSubnetGroupName = cl.dbSubnetGroupName) ∧
    (∀ i ∈ insts, ∀ j ∈ insts,
       i.clusterIdentifier = j.clusterIdentifier ∧ i.engine = j.engine ∧
       i.instanceClass = j.instanceClass ∧
       i.dbSubnetGroupName = j.dbSubnetGroupName ∧ i.tags = j.tags) ∧
    (∀ n (hn : n < insts.length),
       (insts.get ⟨n, hn⟩).constructId = "rds-cluster-instance-" ++ toString n) := by
  rw [construct_aurora cfg h] at hp
  have hp2 : some ((mkAuroraCluster cfg,
      (List.range (jsOrNat cfg.numberOfInstances 1)).map (mkClusterInstance cfg)) :
      RdsCluster × List RdsClusterInstance) = some (cl, insts) := hp
  injection hp2 with hp3
  rw [Prod.mk.injEq] at hp3
  obtain ⟨hcl, hinsts⟩ := hp3
  subst hcl
  subst hinsts
  refine ⟨?_, ?_, ?_⟩
  · intro i hi
    rcases List.mem_map.mp hi with ⟨n, _, rfl⟩
    exact ⟨rfl, rfl, rfl⟩
  · intro i hi j hj
    rcases List.mem_map.mp hi with ⟨n, _, rfl⟩
    rcases List.mem_map.mp hj with ⟨m, _, rfl⟩
    exact ⟨rfl, rfl, rfl, rfl, rfl⟩
  · intro n hn
    simp [List.get_eq_getElem, List.getElem_map, List.getElem_range, mkClusterInstance]

/-- The three cluster instances emitted for `sampleAuroraCfg`. -/
def c10Insts : List RdsClusterInstance :=
  [mkClusterInstance sampleAuroraCfg 0, mkClusterInstance sampleAuroraCfg 1,
   mkClusterInstance sampleAuroraCfg 2]

/-- C10 witness: the sample Aurora configuration's three instances all
reference the cluster, share its engine and subnet group, and differ only
in their construct identifier. -/
theorem c10_cluster_instance_uniformity_witness :
    (∀ i ∈ c10Insts, i.clusterIdentifier = auroraClusterIdToken ∧
       i.engine = (mkAuroraCluster sampleAuroraCfg).engine ∧
       i.dbSubnetGroupName = (mkAuroraCluster sampleAuroraCfg).dbSubnetGroupName) ∧
    (∀ i ∈ c10Insts, ∀ j ∈ c10Insts,
       i.clusterIdentifier = j.clusterIdentifier ∧ i.engine = j.engine ∧
       i.instanceClass = j.instanceClass ∧
       i.dbSubnetGroupName = j.dbSubnetGroupName ∧ i.tags = j.tags) ∧
    (∀ n (hn : n < c10Insts.length),
       (c10Insts.get ⟨n, hn⟩).constructId = "rds-cluster-instance-" ++ toString n) :=
  c10_cluster_instance_uniformity sampleAuroraCfg (mkAuroraCluster sampleAuroraCfg)
    c10Insts rfl rfl
